import Mathlib

/-
Verification of the navigation engine of the unNamedCLIgopherBrowser
repository (source file gopherTESTING.py) against its natural-language
specification.  Python code is shallowly embedded: instance state becomes
explicit record passing, Python exceptions become an explicit error type,
and dynamically typed Python values become the inductive type PyVal.
-/

/-- Dynamically typed Python values as the program stores them: strings,
integers, None, and the 2-tuples `(server, port)` that `navigate` pushes
onto the history. -/
inductive PyVal where
  | str (s : String)
  | int (n : Int)
  | pynone
  | tuple2 (a b : PyVal)
deriving DecidableEq, Repr

/-- Python exceptions raised by the embedded code. -/
inductive PyErr where
  | attributeError (attr : String)
  | indexError
  | typeError (msg : String)
  | valueError (msg : String)
deriving DecidableEq, Repr

/-- Python truthiness for the values of PyVal: None is falsy, an empty
string is falsy, integer 0 is falsy, a 2-tuple is always truthy. -/
def pyTruthy : PyVal → Bool
  | PyVal.pynone => false
  | PyVal.str s => !s.isEmpty
  | PyVal.int n => n != 0
  | PyVal.tuple2 _ _ => true

/-- State of ImprovedHistoryManager (gopherTESTING.py lines 14-19):
`backward_history`, `forward_history` and the configured `max_history`
(default 5; GopherClient constructs the manager with the default). -/
structure Hist where
  backward : List PyVal
  forward : List PyVal
  maxHistory : Nat
deriving DecidableEq, Repr

/-- The manager as GopherClient.__init__ builds it:
ImprovedHistoryManager(history_file=HISTORY_FILE), so max_history = 5 and
both histories start empty. -/
def freshHist : Hist := ⟨[], [], 5⟩

/-- ImprovedHistoryManager.record (lines 21-24): unconditionally append
the address to backward_history and clear forward_history.  This is the
push that GopherClient.navigate invokes (line 212). -/
def record (h : Hist) (address : PyVal) : Hist :=
  { h with backward := h.backward ++ [address], forward := [] }

/-- ImprovedHistoryManager.add_page (lines 26-36): if backward_history is
empty or its last element differs from the page, evict the front when the
length equals max_history (list.pop(0), an IndexError on an empty list),
append the page and clear forward_history; otherwise leave the state
unchanged.  No caller in the repository invokes add_page. -/
def add_page (h : Hist) (page : PyVal) : Except PyErr Hist :=
  if h.backward = [] ∨ h.backward.getLast? ≠ some page then
    if h.backward.length = h.maxHistory then
      match h.backward with
      | [] => Except.error PyErr.indexError
      | _ :: rest =>
          Except.ok { h with backward := rest ++ [page], forward := [] }
    else Except.ok { h with backward := h.backward ++ [page], forward := [] }
  else Except.ok h

/-- Folding add_page over a sequence of pages, propagating any raised
exception. -/
def pushAll (h : Hist) : List PyVal → Except PyErr Hist
  | [] => Except.ok h
  | p :: ps =>
      match add_page h p with
      | Except.error e => Except.error e
      | Except.ok h2 => pushAll h2 ps

/-- ImprovedHistoryManager.go_back (lines 38-51): if backward_history is
empty return None; otherwise pop the last entry, append it to
forward_history, and then evaluate self.logging.debug(...) — but
ImprovedHistoryManager never assigns a `logging` attribute, so this
raises AttributeError after the pop and the append have already mutated
the state.  The subsequent lines that would return the new top are
unreachable.  The mutated state is returned alongside the outcome. -/
def go_back (h : Hist) : (Except PyErr PyVal) × Hist :=
  match h.backward.getLast? with
  | Option.none => (Except.ok PyVal.pynone, h)
  | some last =>
      let h2 : Hist :=
        { h with backward := h.backward.dropLast, forward := h.forward ++ [last] }
      (Except.error (PyErr.attributeError "logging"), h2)

/-- C3: the claim states that go_back returns None on an empty backward
list and otherwise pops the top, appends it to forward, and returns the
new top without raising.  The code does return None on the empty list,
and does pop and transfer the entry, but then always raises
AttributeError because ImprovedHistoryManager has no attribute `logging`
(line 47); the return of the new top (lines 49-51) is dead code.  This
theorem evaluates go_back at a one-element history, exhibiting the raise,
and at the empty history, exhibiting the None return. -/
theorem claim_C3_go_back_raises :
    go_back ⟨[PyVal.tuple2 (PyVal.str "example.org") (PyVal.int 70)], [], 5⟩ =
      (Except.error (PyErr.attributeError "logging"),
       ⟨[], [PyVal.tuple2 (PyVal.str "example.org") (PyVal.int 70)], 5⟩) ∧
    go_back ⟨[], [], 5⟩ = (Except.ok PyVal.pynone, ⟨[], [], 5⟩) :=
  ⟨rfl, rfl⟩

/-- C4 counterexample: the push operation the navigation machine uses is
record (navigate, line 212), which appends unconditionally: pushing six
addresses onto a fresh manager (max_history = 5) leaves backward_history
at length 6, exceeding the configured maximum. -/
theorem claim_C4_record_unbounded_cex :
    freshHist.maxHistory = 5 ∧
    ([PyVal.int 0, PyVal.int 1, PyVal.int 2, PyVal.int 3, PyVal.int 4,
      PyVal.int 5].foldl record freshHist).backward.length = 6 ∧
    ¬ (6 ≤ 5) := by
  decide

theorem add_page_preserves_bound (h : Hist) (p : PyVal)
    (hlen : h.backward.length ≤ h.maxHistory) (hpos : 0 < h.maxHistory) :
    ∃ h2, add_page h p = Except.ok h2 ∧
      h2.backward.length ≤ h.maxHistory ∧ h2.maxHistory = h.maxHistory := by
  unfold add_page
  split
  next hc =>
    split
    next hfull =>
      split
      next heq =>
        exfalso
        rw [heq] at hfull
        simp only [List.length_nil] at hfull
        omega
      next t rest heq =>
        refine ⟨_, rfl, ?_, rfl⟩
        have hl : h.backward.length = rest.length + 1 := by rw [heq]; simp
        show (rest ++ [p]).length ≤ h.maxHistory
        simp only [List.length_append, List.length_cons, List.length_nil]
        omega
    next hfull =>
      refine ⟨_, rfl, ?_, rfl⟩
      show (h.backward ++ [p]).length ≤ h.maxHistory
      simp only [List.length_append, List.length_cons, List.length_nil]
      omega
  next hc => exact ⟨h, rfl, hlen, rfl⟩

/-- C4 amended: the bounded-FIFO property does not hold for record, the
push navigate actually performs, but it does hold for add_page, the
manager's deduplicating bounded push (which no caller uses): starting
from any state within the bound with a positive maximum, folding add_page
over any page sequence succeeds and keeps backward_history within
max_history, and a push onto a full backward_history whose top differs
from the page evicts the oldest entry from the front. -/
theorem claim_C4_add_page_bounded :
    (∀ (h : Hist) (xs : List PyVal),
        h.backward.length ≤ h.maxHistory → 0 < h.maxHistory →
        ∃ h2, pushAll h xs = Except.ok h2 ∧
          h2.backward.length ≤ h.maxHistory) ∧
    (∀ (h : Hist) (p : PyVal),
        h.backward.length = h.maxHistory → 0 < h.maxHistory →
        h.backward.getLast? ≠ some p →
        ∃ t rest, h.backward = t :: rest ∧
          add_page h p =
            Except.ok { h with backward := rest ++ [p], forward := [] }) := by
  constructor
  · intro h xs
    induction xs generalizing h with
    | nil => intro hlen _; exact ⟨h, rfl, hlen⟩
    | cons p ps ih =>
        intro hlen hpos
        obtain ⟨h2, hok, hb, hm⟩ := add_page_preserves_bound h p hlen hpos
        obtain ⟨h3, hok3, hb3⟩ := ih h2 (by rw [hm]; exact hb) (by rw [hm]; exact hpos)
        refine ⟨h3, ?_, by rw [← hm]; exact hb3⟩
        rw [pushAll, hok]
        exact hok3
  · intro h p hfull hpos hne
    rcases hbb : h.backward with _ | ⟨t, rest⟩
    · exfalso
      rw [hbb] at hfull
      simp at hfull
      omega
    · refine ⟨t, rest, rfl, ?_⟩
      unfold add_page
      rw [if_pos (Or.inr hne), if_pos hfull, hbb]

/-- Witness for C4 amended: pushing seven pages through add_page from the
fresh manager stays within the bound of 5. -/
theorem claim_C4_add_page_bounded_witness :
    ∃ h2, pushAll freshHist
        [PyVal.int 0, PyVal.int 1, PyVal.int 2, PyVal.int 3, PyVal.int 4,
         PyVal.int 5, PyVal.int 6] = Except.ok h2 ∧
      h2.backward.length ≤ freshHist.maxHistory :=
  claim_C4_add_page_bounded.1 freshHist
    [PyVal.int 0, PyVal.int 1, PyVal.int 2, PyVal.int 3, PyVal.int 4,
     PyVal.int 5, PyVal.int 6] (by decide) (by decide)

/-- C5 counterexample: record, the push navigate uses, is not idempotent
on consecutive duplicates: pushing the same address twice from the fresh
manager yields a backward_history of length 2, not 1. -/
theorem claim_C5_record_not_idempotent_cex :
    (record freshHist (PyVal.str "a")).backward.getLast? =
      some (PyVal.str "a") ∧
    (record (record freshHist (PyVal.str "a")) (PyVal.str "a")).backward ≠
      (record freshHist (PyVal.str "a")).backward := by
  decide

/-- C5 amended: consecutive-duplicate pushes are a no-op for add_page,
the deduplicating push the manager provides (unused by navigate): when
the page equals the current top of backward_history, add_page returns the
state unchanged.  record, which navigate actually calls, appends the
duplicate. -/
theorem claim_C5_add_page_idempotent (h : Hist) (p : PyVal)
    (htop : h.backward.getLast? = some p) :
    add_page h p = Except.ok h := by
  unfold add_page
  rw [if_neg]
  intro hc
  rcases hc with hc | hc
  · rw [hc] at htop
    simp at htop
  · exact hc htop

/-- Witness for C5 amended at a concrete one-element history. -/
theorem claim_C5_add_page_idempotent_witness :
    add_page ⟨[PyVal.str "a"], [], 5⟩ (PyVal.str "a") =
      Except.ok ⟨[PyVal.str "a"], [], 5⟩ :=
  claim_C5_add_page_idempotent ⟨[PyVal.str "a"], [], 5⟩ (PyVal.str "a")
    (by decide)

/-- Python str.split(sep, 1) for a single-character separator: split at
the first occurrence only, yielding one or two parts. -/
def splitOnce (sep : Char) : List Char → List (List Char)
  | [] => [[]]
  | c :: rest =>
      if c = sep then [[], rest]
      else
        match splitOnce sep rest with
        | [x] => [c :: x]
        | x :: xs => (c :: x) :: xs
        | [] => [[c]]

/-- GopherClient._split_address (lines 377-394) on a string: strip a
leading gopher scheme marker, split once on the first slash into
server_port and selector, and split server_port once on a colon into
server and port, defaulting the port to the string 70. -/
def split_address (address : String) : String × String × String :=
  let a := if address.startsWith "gopher://" then address.drop 9 else address
  let parts := splitOnce '/' a.data
  let serverPort := parts.headD []
  let selector : List Char := match parts with
    | _ :: s :: _ => s
    | _ => []
  if serverPort.contains ':' then
    match splitOnce ':' serverPort with
    | s :: p :: _ => (⟨s⟩, ⟨p⟩, ⟨selector⟩)
    | _ => (⟨serverPort⟩, "70", ⟨selector⟩)
  else (⟨serverPort⟩, "70", ⟨selector⟩)

/-- _split_address applied to an arbitrary Python value, as _go_back does
with whatever go_back returned.  Its first operation is
address.startswith, so any non-string argument (in particular the
(host, port) tuples navigate records) raises AttributeError. -/
def split_address_py (v : PyVal) : Except PyErr (String × String × String) :=
  match v with
  | PyVal.str s => Except.ok (split_address s)
  | _ => Except.error (PyErr.attributeError "startswith")

/-- Model of urllib.parse.urlparse restricted to the shapes this client
could feed it: for a string, return (path, hostname, port), reading an
optional scheme://host:port head; for any non-string value (such as the
(host, port) tuples navigate records) raise TypeError, as urlparse does
on non-string input. -/
def urlparse_py (v : PyVal) : Except PyErr (String × Option String × Option Int) :=
  match v with
  | PyVal.str s =>
      if (s.splitOn "://").length ≥ 2 then
        let afterScheme := String.intercalate "://" ((s.splitOn "://").tail)
        let netlocRest := splitOnce '/' afterScheme.data
        let netloc : List Char := netlocRest.headD []
        let path : String := match netlocRest with
          | _ :: p :: _ => ⟨'/' :: p⟩
          | _ => ""
        match splitOnce ':' netloc with
        | hostPart :: portPart :: _ =>
            Except.ok (path, some ⟨hostPart⟩, String.toInt? ⟨portPart⟩)
        | _ => Except.ok (path, some ⟨netloc⟩, Option.none)
      else Except.ok (s, Option.none, Option.none)
  | _ => Except.error (PyErr.typeError "urlparse expects a string")

/-- Outcomes of GopherClient._handle_user_choice (lines 219-241): the
loop either returns the string BACK after issuing
navigate(parsed.path, record_history=False, server=parsed.hostname,
port=parsed.port) — recorded here as the back constructor with the parsed
request — or exits the process on q; pending marks exhaustion of the
modelled input stream while the loop is still awaiting input. -/
inductive HUCRes where
  | back (selector : String) (server : Option String) (port : Option Int)
  | exited
  | pending
deriving DecidableEq, Repr

/-- GopherClient._handle_user_choice (lines 219-241), with the sequence
of user inputs made explicit: on b call history_manager.go_back (whose
exceptions propagate to the caller); if the result is truthy, urlparse it
and call navigate on its path, hostname and port with
record_history=False, returning BACK; if falsy, print the
beginning-of-history message and re-prompt; on q exit; on anything else
re-prompt. -/
def handle_user_choice (inputs : List String) (h : Hist) :
    (Except PyErr HUCRes) × Hist :=
  match inputs with
  | [] => (Except.ok HUCRes.pending, h)
  | choice :: rest =>
      if choice = "b" then
        match go_back h with
        | (Except.error e, h2) => (Except.error e, h2)
        | (Except.ok prev, h2) =>
            if pyTruthy prev then
              match urlparse_py prev with
              | Except.error e => (Except.error e, h2)
              | Except.ok (path, hostSel, portSel) =>
                  (Except.ok (HUCRes.back path hostSel portSel), h2)
            else handle_user_choice rest h2
      else if choice = "q" then (Except.ok HUCRes.exited, h)
      else handle_user_choice rest h

/-- Outcomes of GopherClient._go_back (lines 396-414). -/
inductive GoBackClientRes where
  | atBeginning
  | navigated (selector server port : String)
deriving DecidableEq, Repr

/-- GopherClient._go_back (lines 396-414): if backward_history is empty,
print the beginning-of-history message and return; otherwise call
history_manager.go_back (whose exceptions propagate); a falsy result
prints the same message; a truthy result is passed to _split_address and
then to navigate(selector, record_history=False, server, port). -/
def go_back_client (h : Hist) : (Except PyErr GoBackClientRes) × Hist :=
  match h.backward with
  | [] => (Except.ok GoBackClientRes.atBeginning, h)
  | _ :: _ =>
      match go_back h with
      | (Except.error e, h2) => (Except.error e, h2)
      | (Except.ok prev, h2) =>
          if pyTruthy prev then
            match split_address_py prev with
            | Except.error e => (Except.error e, h2)
            | Except.ok (server, port, sel) =>
                (Except.ok (GoBackClientRes.navigated sel server port), h2)
          else (Except.ok GoBackClientRes.atBeginning, h2)

/-- C1: the claim states that on the back choice, when the history yields
a previous address, the client re-navigates to it with
recordHistory=false, and otherwise informs the user.  Under the stated
precondition — the stack holds the (host, port) tuples that navigate
pushes — the code never re-navigates: history_manager.go_back raises
AttributeError (no `logging` attribute) before returning any address, so
both back paths (_handle_user_choice and _go_back) propagate an exception
instead of navigating; even absent that raise, the tuple would crash
urlparse and _split_address, which require strings.  The theorem
evaluates both paths at a one-entry history, showing the raise, and the
_handle_user_choice path at an empty history, showing the
inform-and-do-not-navigate branch followed by quit. -/
theorem claim_C1_back_navigation_raises :
    handle_user_choice ["b"]
        ⟨[PyVal.tuple2 (PyVal.str "1436.ninja") (PyVal.int 70)], [], 5⟩ =
      (Except.error (PyErr.attributeError "logging"),
       ⟨[], [PyVal.tuple2 (PyVal.str "1436.ninja") (PyVal.int 70)], 5⟩) ∧
    go_back_client
        ⟨[PyVal.tuple2 (PyVal.str "1436.ninja") (PyVal.int 70)], [], 5⟩ =
      (Except.error (PyErr.attributeError "logging"),
       ⟨[], [PyVal.tuple2 (PyVal.str "1436.ninja") (PyVal.int 70)], 5⟩) ∧
    handle_user_choice ["b", "q"] ⟨[], [], 5⟩ =
      (Except.ok HUCRes.exited, ⟨[], [], 5⟩) :=
  ⟨rfl, rfl, rfl⟩

/-- Python str.split(sep) for a single-character separator with no limit:
every occurrence separates, and splitting any string yields at least one
(possibly empty) part, exactly as in Python. -/
def pySplit (sep : Char) : List Char → List (List Char)
  | [] => [[]]
  | c :: rest =>
      let r := pySplit sep rest
      if c = sep then [] :: r
      else
        match r with
        | [] => [[c]]
        | x :: xs => (c :: x) :: xs

/-- The count of lines of the response that contain at least 3 tab
characters, as _display_gopher_menu computes it (lines 512-514):
lines = data.split newline, counting lines with line.count of tab at
least 3. -/
def menu_line_count (data : String) : Nat :=
  (pySplit '\n' data.data).countP
    (fun l => decide (3 ≤ l.countP (fun c => c == '\t')))

/-- The total number of lines of the response, len(lines) in
_display_gopher_menu. -/
def total_line_count (data : String) : Nat :=
  (pySplit '\n' data.data).length

/-- The response-classifier branch of _display_gopher_menu (line 517):
the response is treated as a menu exactly when
menu_line_count is greater than len(lines) * 0.20, the literal 0.20
modelled as the rational 20/100. -/
def is_menu_response (data : String) : Bool :=
  decide ((menu_line_count data : ℚ) > (total_line_count data : ℚ) * (20 / 100))

/-- C6: the classifier returns Menu exactly when the number of lines with
at least 3 tabs strictly exceeds 20 percent of the total line count
(equivalently, five times the menu-line count exceeds the line count),
and Content otherwise; in particular exactly 20 percent classifies as
Content because the comparison is strict. -/
theorem claim_C6_classifier_threshold (data : String) :
    (is_menu_response data = true ↔
      total_line_count data < 5 * menu_line_count data) ∧
    (5 * menu_line_count data = total_line_count data →
      is_menu_response data = false) := by
  have key : ((total_line_count data : ℚ) * (20 / 100) < (menu_line_count data : ℚ)) ↔
      (total_line_count data < 5 * menu_line_count data) := by
    rw [show (20 : ℚ) / 100 = 1 / 5 by norm_num, mul_one_div,
      div_lt_iff₀ (by norm_num : (0 : ℚ) < 5)]
    constructor
    · intro h2
      have h3 : total_line_count data < menu_line_count data * 5 := by
        exact_mod_cast h2
      omega
    · intro h2
      have h3 : total_line_count data < menu_line_count data * 5 := by omega
      exact_mod_cast h3
  have hiff : is_menu_response data = true ↔
      total_line_count data < 5 * menu_line_count data := by
    simp only [is_menu_response, decide_eq_true_eq, gt_iff_lt]
    exact key
  refine ⟨hiff, ?_⟩
  intro heq
  cases hb : is_menu_response data
  · rfl
  · exfalso
    have := hiff.mp hb
    omega

/-- Witness for C6 at a five-line response whose single menu line gives a
density of exactly 20 percent: classified as Content. -/
theorem claim_C6_classifier_threshold_witness :
    is_menu_response "a\tb\tc\td\nv\nw\nx\ny" = false :=
  (claim_C6_classifier_threshold "a\tb\tc\td\nv\nw\nx\ny").2 (by decide)

/-- A parsed menu entry (one line of a Gopher menu): the item type is the
first character of field 0, the label the remainder of field 0, and
selector, host and port are fields 1 to 3; the port is kept as the raw
string, as _parse_gopher_menu does. -/
structure MenuEntry where
  itemType : Char
  label : String
  selector : String
  host : String
  port : String
deriving DecidableEq, Repr

/-- One iteration of the _parse_gopher_menu loop (lines 484-492): split
the line on tabs; with fewer than 4 parts contribute no entry; with 4 or
more parts take parts zero-[0] as the type (an IndexError when field 0 is
the empty string, since an empty Python string has no index 0), the rest
of field 0 as the label, and fields 1 to 3 as selector, host and port. -/
def parse_menu_line (line : String) : Except PyErr (Option MenuEntry) :=
  match pySplit '\t' line.data with
  | p0 :: p1 :: p2 :: p3 :: _ =>
      match p0 with
      | [] => Except.error PyErr.indexError
      | c :: rest => Except.ok (some ⟨c, ⟨rest⟩, ⟨p1⟩, ⟨p2⟩, ⟨p3⟩⟩)
  | _ => Except.ok Option.none

/-- GopherClient._parse_gopher_menu (lines 479-493): split the response
on newlines and accumulate the entries of the parseable lines in order;
an exception raised on any line aborts the whole parse (it propagates to
navigate). -/
def parse_menu_lines : List (List Char) → Except PyErr (List MenuEntry)
  | [] => Except.ok []
  | l :: ls =>
      match parse_menu_line ⟨l⟩ with
      | Except.error e => Except.error e
      | Except.ok Option.none => parse_menu_lines ls
      | Except.ok (some e) =>
          match parse_menu_lines ls with
          | Except.error e2 => Except.error e2
          | Except.ok es => Except.ok (e :: es)

def parse_gopher_menu (menuData : String) : Except PyErr (List MenuEntry) :=
  parse_menu_lines (pySplit '\n' menuData.data)

/-- C7 counterexample: a line of four tab-separated fields whose field 0
is empty — a line beginning with a tab — makes parse raise IndexError at
parts zero-[0] instead of producing an entry, refuting the claim that
every line with 4 or more fields yields exactly one entry. -/
theorem claim_C7_parse_empty_field0_cex :
    (pySplit '\t' "\ta\tb\tc".data).length = 4 ∧
    parse_menu_line "\ta\tb\tc" = Except.error PyErr.indexError ∧
    parse_gopher_menu "\ta\tb\tc" = Except.error PyErr.indexError := by
  refine ⟨rfl, rfl, rfl⟩

/-- C7 amended: a line with fewer than 4 tab-separated fields produces no
entry and never raises; a line with 4 or more fields whose field 0 is
non-empty produces exactly one entry whose item type is the first
character of field 0, label the remainder of field 0, and selector, host
and port fields 1 to 3; a line with 4 or more fields and an empty field 0
raises IndexError. -/
theorem claim_C7_parse_fields (line : String) :
    ((pySplit '\t' line.data).length < 4 →
      parse_menu_line line = Except.ok Option.none) ∧
    (∀ (c : Char) (cs p1 p2 p3 : List Char) (restParts : List (List Char)),
      pySplit '\t' line.data = (c :: cs) :: p1 :: p2 :: p3 :: restParts →
      parse_menu_line line =
        Except.ok (some ⟨c, ⟨cs⟩, ⟨p1⟩, ⟨p2⟩, ⟨p3⟩⟩)) ∧
    (∀ (p1 p2 p3 : List Char) (restParts : List (List Char)),
      pySplit '\t' line.data = [] :: p1 :: p2 :: p3 :: restParts →
      parse_menu_line line = Except.error PyErr.indexError) := by
  refine ⟨?_, ?_, ?_⟩
  · intro hlt
    unfold parse_menu_line
    match hs : pySplit '\t' line.data with
    | [] => rfl
    | [_] => rfl
    | [_, _] => rfl
    | [_, _, _] => rfl
    | _ :: _ :: _ :: _ :: _ =>
        exfalso
        rw [hs] at hlt
        simp only [List.length_cons] at hlt
        omega
  · intro c cs p1 p2 p3 restParts hs
    unfold parse_menu_line
    rw [hs]
  · intro p1 p2 p3 restParts hs
    unfold parse_menu_line
    rw [hs]

/-- Witness for C7 amended on concrete lines: a well-formed menu line
parses into its positional fields, and a two-field line is dropped. -/
theorem claim_C7_parse_fields_witness :
    parse_menu_line "1Floodgap\t/home\tgopher.floodgap.com\t70" =
      Except.ok (some ⟨'1', "Floodgap", "/home", "gopher.floodgap.com", "70"⟩) ∧
    parse_menu_line "no\ttabs enough" = Except.ok Option.none :=
  ⟨(claim_C7_parse_fields "1Floodgap\t/home\tgopher.floodgap.com\t70").2.1
      '1' "Floodgap".data "/home".data "gopher.floodgap.com".data "70".data []
      (by decide),
   (claim_C7_parse_fields "no\ttabs enough").1 (by decide)⟩

/-- JSON-serializable values as the configuration code stores them:
strings, integers, and lists of Python values (the history lists). -/
inductive JVal where
  | str (s : String)
  | int (n : Int)
  | vlist (xs : List PyVal)
deriving DecidableEq, Repr

/-- The client attributes that save_config and load_config touch.  The
fields are dynamically typed, as Python attributes are. -/
structure CfgState where
  hostname : JVal
  port : JVal
  backward_history : JVal
  forward_history : JVal
deriving DecidableEq, Repr

/-- GopherClient.save_config (lines 328-337): the JSON document written
to config.json, with keys hostname, port, backward_history and
forward_history. -/
def save_config (c : CfgState) : List (String × JVal) :=
  [("hostname", c.hostname), ("port", c.port),
   ("backward_history", c.backward_history),
   ("forward_history", c.forward_history)]

/-- Python dict.get(key, default) on a JSON document modelled as an
association list. -/
def dictGet (doc : List (String × JVal)) (k : String) (default : JVal) : JVal :=
  match doc.find? (fun e => e.1 == k) with
  | some e => e.2
  | Option.none => default

/-- GopherClient.load_config (lines 339-345): read the document and
assign hostname and port from keys hostname and port, but the history
lists from keys backward and forward, each defaulting to the current
attribute value when the key is absent. -/
def load_config (doc : List (String × JVal)) (c : CfgState) : CfgState :=
  { hostname := dictGet doc "hostname" c.hostname,
    port := dictGet doc "port" c.port,
    backward_history := dictGet doc "backward" c.backward_history,
    forward_history := dictGet doc "forward" c.forward_history }

/-- C2: the claim states that persisting and then restoring on a fresh
instance reproduces identical backward and forward sequences.  It does
not: save_config writes the histories under the keys backward_history and
forward_history, while load_config reads the keys backward and forward,
so on a fresh instance the dict.get defaults leave both histories empty
regardless of what was persisted.  This theorem evaluates the round trip
at a client with one recorded address: the restored instance keeps its
empty histories, differing from the persisted ones. -/
theorem claim_C2_persist_restore_mismatch :
    (load_config
        (save_config
          ⟨JVal.str "1436.ninja", JVal.int 70,
           JVal.vlist [PyVal.tuple2 (PyVal.str "example.org") (PyVal.int 70)],
           JVal.vlist []⟩)
        ⟨JVal.str "1436.ninja", JVal.int 70, JVal.vlist [], JVal.vlist []⟩).backward_history =
      JVal.vlist [] ∧
    JVal.vlist [PyVal.tuple2 (PyVal.str "example.org") (PyVal.int 70)] ≠
      JVal.vlist [] := by
  refine ⟨rfl, by decide⟩

/-- GopherClient._send_request (lines 446-477) as a function of the
socket-level outcome of the connect/send/recv sequence: a successful
exchange returns the decoded response; any raised error is caught by the
catch-all handler, which reports it via _error_handler and returns None.
The Bool records whether the error handler ran. -/
def send_request (raw : Except String String) : Option String × Bool :=
  match raw with
  | Except.ok s => (some s, false)
  | Except.error _ => (Option.none, true)

/-- Oracles for the sub-interactions of one navigate call: the raw socket
outcome consumed by _send_request, the result of _display_gopher_menu
(a selected (selector, server, port) triple or None plus any history
mutation its back handling performed, or a raised exception), and the
result of _handle_user_choice (the returned action string, or a raised
exception, plus history mutation). -/
structure NavEnv where
  raw : Except String String
  displayMenu : String → Hist →
    (Except PyErr (Option String × Option String × Option Int)) × Hist
  handleChoice : String → Hist → (Except PyErr String) × Hist

/-- How one navigate call ends: a plain return, or a tail recursion
navigate(selector, record_history=False, server, port) into a selected
menu entry. -/
inductive NavRes where
  | ret
  | recurse (selector : String) (server : String) (port : Int)
deriving DecidableEq, Repr

/-- Result of one navigate call: the history state it leaves behind, how
it ended, and whether an error was reported (by _send_request or by the
except-clause of navigate itself).  navigate catches every exception
(line 216), so it has no raising outcome. -/
structure NavStep where
  hist : Hist
  res : NavRes
  errorReported : Bool
deriving DecidableEq, Repr

/-- Python falsy test for the optional server string of a menu entry:
None and the empty string select the current host. -/
def pyStrOr (v : Option String) (d : String) : String :=
  match v with
  | some s => if s.isEmpty then d else s
  | Option.none => d

/-- Python falsy test for the optional port of a menu entry: None and 0
select the current port. -/
def pyIntOr (v : Option Int) (d : Int) : Int :=
  match v with
  | some n => if n = 0 then d else n
  | Option.none => d

def optStrToPy (v : Option String) : PyVal :=
  match v with
  | some s => PyVal.str s
  | Option.none => PyVal.pynone

/-- The body of GopherClient.navigate (lines 176-217) for one call, with
the sub-calls supplied by the oracle environment and the recursive call
reified as NavRes.recurse: fetch via _send_request and return if the
response is falsy (None on transport error, or the empty string); if the
response contains a tab, consult _display_gopher_menu and either recurse
into the selected entry with record_history=False (server and port
falling back to self.host and self.port), or run _handle_user_choice and
return if it answers BACK; if the response has no tab, run
_handle_user_choice directly; if the call falls through and
record_history is set, push the (server, port) tuple via record.  The
try/except around the body converts any raised exception into an error
report and a plain return. -/
def navigate_body (env : NavEnv) (selfHost : String) (selfPort : Int)
    (recordHistory : Bool) (server : Option String) (port : Int)
    (h : Hist) : NavStep :=
  match send_request env.raw with
  | (Option.none, reported) => ⟨h, NavRes.ret, reported⟩
  | (some data, _) =>
      if data.isEmpty then ⟨h, NavRes.ret, false⟩
      else if data.data.contains '\t' then
        match env.displayMenu data h with
        | (Except.error _, h2) => ⟨h2, NavRes.ret, true⟩
        | (Except.ok (some sel, ns, np), h2) =>
            ⟨h2, NavRes.recurse sel (pyStrOr ns selfHost) (pyIntOr np selfPort),
             false⟩
        | (Except.ok (Option.none, _, _), h2) =>
            match env.handleChoice data h2 with
            | (Except.error _, h3) => ⟨h3, NavRes.ret, true⟩
            | (Except.ok action, h3) =>
                if action = "BACK" then ⟨h3, NavRes.ret, false⟩
                else if recordHistory then
                  ⟨record h3 (PyVal.tuple2 (optStrToPy server) (PyVal.int port)),
                   NavRes.ret, false⟩
                else ⟨h3, NavRes.ret, false⟩
      else
        match env.handleChoice data h with
        | (Except.error _, h2) => ⟨h2, NavRes.ret, true⟩
        | (Except.ok action, h2) =>
            if action = "BACK" then ⟨h2, NavRes.ret, false⟩
            else if recordHistory then
              ⟨record h2 (PyVal.tuple2 (optStrToPy server) (PyVal.int port)),
               NavRes.ret, false⟩
            else ⟨h2, NavRes.ret, false⟩

/-- C8: when the transport request fails, _send_request reports the error
and returns None, and navigate returns at once with the history stack it
was given, untouched; no socket exception escapes navigate — the model
encodes this in send_request, built from the catch-all except of
_send_request, and in the total return type of navigate_body. -/
theorem claim_C8_transport_error_atomic (env : NavEnv) (selfHost : String)
    (selfPort : Int) (recordHistory : Bool) (server : Option String)
    (port : Int) (h : Hist) (msg : String)
    (hraw : env.raw = Except.error msg) :
    navigate_body env selfHost selfPort recordHistory server port h =
      ⟨h, NavRes.ret, true⟩ := by
  unfold navigate_body send_request
  rw [hraw]

/-- Witness for C8: a concrete environment whose socket exchange times
out, a concrete client state and a one-entry history: navigate returns
with that history intact and the error reported. -/
theorem claim_C8_transport_error_atomic_witness :
    navigate_body
      ⟨Except.error "timed out",
       fun _ h => (Except.ok (Option.none, Option.none, Option.none), h),
       fun _ h => (Except.ok "BACK", h)⟩
      "1436.ninja" 70 true Option.none 70
      ⟨[PyVal.tuple2 PyVal.pynone (PyVal.int 70)], [], 5⟩ =
      ⟨⟨[PyVal.tuple2 PyVal.pynone (PyVal.int 70)], [], 5⟩, NavRes.ret, true⟩ :=
  claim_C8_transport_error_atomic _ "1436.ninja" 70 true Option.none 70
    ⟨[PyVal.tuple2 PyVal.pynone (PyVal.int 70)], [], 5⟩ "timed out" rfl

/-- A file system as path-to-content pairs; the first binding for a path
wins. -/
def FSA := List (String × String)

def fsGet (fs : FSA) (p : String) : Option String :=
  ((fs.find? (fun e => e.1 == p)).map (fun e => e.2))

def fsRemove (fs : FSA) (p : String) : FSA :=
  fs.filter (fun e => e.1 != p)

def fsSet (fs : FSA) (p c : String) : FSA :=
  (p, c) :: fsRemove fs p

def fsExists (fs : FSA) (p : String) : Bool :=
  (fsGet fs p).isSome

/-- Failure oracles for one _save_to_file call: whether the json.dump
write succeeds, and the partial content open(w)/json.dump leaves in the
file when the dump fails midway (open truncates before writing).  The
shutil.copy2 backup and restore copies are modelled as succeeding when
their source file exists; when the initial backup copy fails the source
aborts before writing, leaving the state untouched, which the model
folds into the same no-write outcome. -/
structure SaveEnv where
  writeOk : Bool
  truncated : String

/-- The write-then-cleanup half of GopherClient._save_to_file
(lines 570-590): try to write the new data; on failure restore the file
from the backup when one exists and return; on success remove the
backup when one exists. -/
def save_write (env : SaveEnv) (fs : FSA) (filename backup data : String) :
    FSA :=
  if env.writeOk then
    let fs2 := fsSet fs filename data
    if fsExists fs2 backup then fsRemove fs2 backup else fs2
  else
    let fs2 := fsSet fs filename env.truncated
    if fsExists fs2 backup then
      fsSet fs2 filename ((fsGet fs2 backup).getD "")
    else fs2

/-- GopherClient._save_to_file (lines 555-590): if the target file
exists, first copy it to filename + .bak; then write and clean up via
save_write. -/
def save_to_file (env : SaveEnv) (fs : FSA) (filename data : String) : FSA :=
  let backup := filename ++ ".bak"
  if fsExists fs filename then
    save_write env (fsSet fs backup ((fsGet fs filename).getD "")) filename
      backup data
  else
    save_write env fs filename backup data

theorem fsGet_fsSet_self (fs : FSA) (p c : String) :
    fsGet (fsSet fs p c) p = some c := by
  simp [fsGet, fsSet, List.find?]

theorem fsGet_cons (e : String × String) (rest : FSA) (q : String) :
    fsGet (e :: rest) q = if e.1 == q then some e.2 else fsGet rest q := by
  simp only [fsGet, List.find?]
  cases he : (e.1 == q)
  · simp [he]
  · simp [he]

theorem fsGet_fsRemove_ne (fs : FSA) (p q : String) (hne : p ≠ q) :
    fsGet (fsRemove fs p) q = fsGet fs q := by
  induction fs with
  | nil => rfl
  | cons e rest ih =>
      by_cases hep : e.1 = p
      · have hf : fsRemove (e :: rest) p = fsRemove rest p := by
          simp [fsRemove, List.filter_cons, hep]
        have heq : (e.1 == q) = false := by
          simp only [beq_eq_false_iff_ne, ne_eq]
          rw [hep]
          exact hne
        rw [hf, ih, fsGet_cons, heq]
        simp
      · have hf : fsRemove (e :: rest) p = e :: fsRemove rest p := by
          simp [fsRemove, List.filter_cons, hep]
        rw [hf, fsGet_cons, fsGet_cons, ih]

theorem fsGet_fsSet_ne (fs : FSA) (p q c : String) (hne : p ≠ q) :
    fsGet (fsSet fs p c) q = fsGet fs q := by
  have h2 : (p == q) = false := by simp [hne]
  simp only [fsSet]
  rw [show fsGet ((p, c) :: fsRemove fs p) q = fsGet (fsRemove fs p) q by
    simp [fsGet, List.find?, h2]]
  exact fsGet_fsRemove_ne fs p q hne

theorem bak_name_ne (s : String) : s ≠ s ++ ".bak" := by
  intro hcontra
  have hlen := congrArg String.length hcontra
  rw [String.length_append] at hlen
  have h4 : (".bak" : String).length = 4 := rfl
  omega

/-- C9: every persistence write of an existing file first copies it to a
backup, and when the write fails the previous content is restored from
that backup: after a failed write, the target file again holds its
original content and the backup file holds it as well (the backup made
before the write; the code leaves it in place on the failure path). -/
theorem claim_C9_backup_restore (env : SaveEnv) (fs : FSA)
    (filename data old : String)
    (hold : fsGet fs filename = some old)
    (hfail : env.writeOk = false) :
    fsGet (save_to_file env fs filename data) filename = some old ∧
    fsGet (save_to_file env fs filename data) (filename ++ ".bak") =
      some old := by
  have hne : filename ≠ filename ++ ".bak" := bak_name_ne filename
  have hne2 : filename ++ ".bak" ≠ filename := fun hcontra => hne hcontra.symm
  unfold save_to_file
  rw [show fsExists fs filename = true by simp [fsExists, hold]]
  simp only [if_true, hold, Option.getD_some]
  unfold save_write
  rw [hfail]
  simp only [Bool.false_eq_true, if_false]
  have hbak : fsGet (fsSet (fsSet fs (filename ++ ".bak") old) filename
      env.truncated) (filename ++ ".bak") = some old := by
    rw [fsGet_fsSet_ne _ _ _ _ hne]
    exact fsGet_fsSet_self fs (filename ++ ".bak") old
  rw [show fsExists (fsSet (fsSet fs (filename ++ ".bak") old) filename
      env.truncated) (filename ++ ".bak") = true by simp [fsExists, hbak]]
  simp only [if_true, hbak, Option.getD_some]
  constructor
  · exact fsGet_fsSet_self _ filename old
  · rw [fsGet_fsSet_ne _ _ _ _ hne]
    exact hbak

/-- Witness for C9: a concrete config.json with prior content, a failed
write: the file still holds the prior content and the backup holds it
too. -/
theorem claim_C9_backup_restore_witness :
    fsGet (save_to_file ⟨false, "garbled"⟩ [("config.json", "old-config")]
        "config.json" "new-config") "config.json" = some "old-config" ∧
    fsGet (save_to_file ⟨false, "garbled"⟩ [("config.json", "old-config")]
        "config.json" "new-config") ("config.json" ++ ".bak") =
      some "old-config" :=
  claim_C9_backup_restore ⟨false, "garbled"⟩ [("config.json", "old-config")]
    "config.json" "new-config" "old-config" rfl rfl

/-- Every attribute name that any method of GopherClient ever assigns on
self (lines 82-91 in __init__ and the reassignments of host, port, debug
and socket in connect_to_server, toggle_debug_mode, connect, search,
load_config and _establish_connection).  Neither history nor
history_index appears: no operation of the client initializes them. -/
def gopherClientAssignedAttrs : List String :=
  ["logging", "host", "port", "timeout", "debug", "socket",
   "bookmarks", "search_engines", "history_manager", "is_navigating_back"]

/-- Outcomes of GopherClient.go_forward when its attribute reads
succeed. -/
inductive GoFwdRes where
  | navigated (selector : PyVal)
  | atEnd
deriving Repr

/-- Python list indexing with negative-index wraparound. -/
def pyListGet (l : List PyVal) (i : Int) : Except PyErr PyVal :=
  let j := if i < 0 then i + l.length else i
  if j < 0 then Except.error PyErr.indexError
  else
    match l.get? j.toNat with
    | some v => Except.ok v
    | Option.none => Except.error PyErr.indexError

/-- GopherClient.go_forward (lines 243-250) over the client's dynamic
attribute store: read self.history_index, then self.history (each read of
an attribute the object does not have raises AttributeError); when both
exist, compare the index against len(history) - 1 and either advance and
navigate to history[index + 1] or print the end-of-history message. -/
def go_forward_client (attr : String → Option JVal) : Except PyErr GoFwdRes :=
  match attr "history_index" with
  | Option.none => Except.error (PyErr.attributeError "history_index")
  | some hi =>
      match attr "history" with
      | Option.none => Except.error (PyErr.attributeError "history")
      | some hist =>
          match hi, hist with
          | JVal.int i, JVal.vlist l =>
              if i < (l.length : Int) - 1 then
                match pyListGet l (i + 1) with
                | Except.ok sel => Except.ok (GoFwdRes.navigated sel)
                | Except.error e => Except.error e
              else Except.ok GoFwdRes.atEnd
          | _, _ => Except.error (PyErr.typeError "go_forward attribute types")

/-- C10: for any attribute store whose populated attributes are among
those the client ever assigns, go_forward raises AttributeError on its
very first read, self.history_index, because no operation of the client
initializes history_index (or history); forward re-traversal is therefore
unreachable through the client interface. -/
theorem claim_C10_go_forward_raises (attr : String → Option JVal)
    (hdom : ∀ a, (attr a).isSome = true → a ∈ gopherClientAssignedAttrs) :
    go_forward_client attr =
      Except.error (PyErr.attributeError "history_index") := by
  cases hv : attr "history_index" with
  | none => simp [go_forward_client, hv]
  | some v =>
      exfalso
      have hmem := hdom "history_index" (by rw [hv]; rfl)
      revert hmem
      decide

/-- Witness for C10: the attribute store holding exactly the attributes
__init__ creates (each with a placeholder value): go_forward raises. -/
theorem claim_C10_go_forward_raises_witness :
    go_forward_client
      (fun a => if a ∈ gopherClientAssignedAttrs then some (JVal.int 0)
                else Option.none) =
      Except.error (PyErr.attributeError "history_index") :=
  claim_C10_go_forward_raises
    (fun a => if a ∈ gopherClientAssignedAttrs then some (JVal.int 0)
              else Option.none)
    (by
      intro a ha
      by_cases hm : a ∈ gopherClientAssignedAttrs
      · exact hm
      · exfalso
        have hb : (if a ∈ gopherClientAssignedAttrs then some (JVal.int 0)
            else (Option.none : Option JVal)).isSome = true := ha
        rw [if_neg hm] at hb
        exact absurd hb (by simp))
